import Mathlib

/-!
Shallow embedding of the invoice-normalization core of `src/main.py`
(PROCESADOR-FACTURAS).

Python `Decimal` values are modelled in two complementary ways:

* exact rationals (`ℚ`) for arithmetic — the source sets a 28-significant-digit
  context, so every arithmetic step appearing in the claims is exact except for
  non-terminating divisions, whose 28-digit truncation is far below the
  two-decimal output granularity;
* coefficient/exponent pairs (`Dec`) wherever the source depends on the printed
  representation of a `Decimal` (`str`, `quantize`, f-string interpolation).

The rounding mode everywhere is `ROUND_HALF_EVEN`, the `decimal`-context
default that the source leaves in place (it only sets `prec`).  The sign of a
Python negative-zero `Decimal` is not tracked by `Dec`; no claim depends on it.
-/

set_option synthInstance.maxSize 400

namespace Facturas

/-- Python whitespace test used by `str.strip` and by the regex class `\s`
(ASCII range; all inputs relevant to the claims are ASCII). -/
def pySpace (c : Char) : Bool :=
  c == ' ' || c == '\t' || c == '\n' || c == '\r' || c == Char.ofNat 11 || c == Char.ofNat 12

/-- Python `str.strip` on a character list. -/
def stripL (l : List Char) : List Char :=
  ((l.dropWhile pySpace).reverse.dropWhile pySpace).reverse

/-- Python `str.strip`. -/
def strip (s : String) : String := String.mk (stripL s.data)

/-- Python `str.upper` (ASCII letters; the entity-type and property names
matched in the source are ASCII). -/
def strUpper (s : String) : String := String.mk (s.data.map Char.toUpper)

/-- Python `str.lower` (ASCII letters). -/
def strLower (s : String) : String := String.mk (s.data.map Char.toLower)

/-- Numeric value of a digit list (most-significant first). -/
def digitsToNat (l : List Char) : Nat :=
  l.foldl (fun a c => a * 10 + (c.toNat - 48)) 0

/-- Fueled digit extraction, most-significant first. -/
def natDigitsAux : Nat → Nat → List Char
  | 0, _ => []
  | f + 1, n => if n = 0 then [] else natDigitsAux f (n / 10) ++ [Char.ofNat (48 + n % 10)]

/-- Decimal digits of a natural number, most-significant first. -/
def natDigitList (n : Nat) : List Char :=
  if n = 0 then ['0'] else natDigitsAux (n + 1) n

/-- Round a rational to the nearest integer, ties to even
(`ROUND_HALF_EVEN`). -/
def rndHalfEven (x : ℚ) : ℤ :=
  let f : ℤ := x.num.fdiv x.den
  let r : ℚ := x - (f : ℚ)
  if r < 1/2 then f else if 1/2 < r then f + 1 else if f % 2 = 0 then f else f + 1

/-- Coefficient/exponent view of a Python `Decimal`
(value `c * 10 ^ e`). -/
structure Dec where
  c : ℤ
  e : ℤ
deriving DecidableEq, Repr

/-- Rational value of a `Dec`. -/
def Dec.toQ (d : Dec) : ℚ :=
  if 0 ≤ d.e then (d.c : ℚ) * (10 : ℚ) ^ d.e.toNat else (d.c : ℚ) / (10 : ℚ) ^ (-d.e).toNat

/-- Repeated `'0'` characters. -/
def zeros (n : Nat) : List Char := List.replicate n '0'

/-- Digit/point layout of Python `Decimal.__str__` for an unsigned coefficient
digit list and an exponent (the to-scientific-string rule of the General
Decimal Arithmetic specification followed by `decimal`). -/
def decBody (ds : List Char) (e : ℤ) : List Char :=
  let adjusted : ℤ := e + ds.length - 1
  if e ≤ 0 ∧ -6 ≤ adjusted then
    if e = 0 then ds
    else if (ds.length : ℤ) > -e then
      ds.take (ds.length - (-e).toNat) ++ '.' :: ds.drop (ds.length - (-e).toNat)
    else '0' :: '.' :: zeros ((-e).toNat - ds.length) ++ ds
  else
    (if ds.length = 1 then ds else ds.take 1 ++ '.' :: ds.drop 1) ++
      'E' :: (if 0 ≤ adjusted then '+' :: natDigitList adjusted.toNat
              else '-' :: natDigitList (-adjusted).toNat)

/-- Python `str` of a `Decimal`. -/
def decStr (d : Dec) : String :=
  String.mk ((if d.c < 0 then ['-'] else []) ++ decBody (natDigitList d.c.natAbs) d.e)

/-- Fueled trailing-zero removal on a coefficient/exponent pair. -/
def stripZerosAux : Nat → ℤ → ℤ → ℤ × ℤ
  | 0, c, e => (c, e)
  | f + 1, c, e => if c ≠ 0 ∧ c % 10 = 0 then stripZerosAux f (c / 10) (e + 1) else (c, e)

/-- Python `Decimal.normalize` (trailing-zero removal; zero normalizes to
exponent `0`). -/
def normalizeDec (d : Dec) : Dec :=
  if d.c = 0 then ⟨0, 0⟩
  else
    let p := stripZerosAux (d.c.natAbs + 1) d.c d.e
    ⟨p.1, p.2⟩

/-- Python `Decimal.quantize (TWOPLACES)` under `ROUND_HALF_EVEN`
(`TWOPLACES = Decimal ("0.01")` in the source). -/
def quantize2 (d : Dec) : Dec := ⟨rndHalfEven (d.toQ * 100), -2⟩

/-- Python `Decimal.quantize (Decimal ("1"))` under `ROUND_HALF_EVEN`. -/
def quantize0 (q : ℚ) : Dec := ⟨rndHalfEven q, 0⟩

/-- Python `Decimal.quantize (Decimal ("0.1"))` under `ROUND_HALF_EVEN`. -/
def quantizeTenths (q : ℚ) : Dec := ⟨rndHalfEven (q * 10), -1⟩

/-- Fueled trailing-zero count of a natural number (zero for zero). -/
def trailingZeros : Nat → Nat → Nat
  | 0, _ => 0
  | f + 1, n => if n % 10 = 0 ∧ n ≠ 0 then trailingZeros f (n / 10) + 1 else 0

/-- Python `Decimal` division by `Decimal (100)` at the source's 28-digit
context (General Decimal Arithmetic, divide).  The quotient is exact in
value (a shift by two decimal places), so the result keeps the exact
coefficient with its exponent brought as close as possible to the ideal
exponent `e₁ − e₂ = d.e − 0` without the coefficient exceeding 28 digits —
trailing zeros are stripped toward the ideal from above and padded toward
the ideal from below (`Decimal ("16")/100 = Decimal ("0.16")` but
`Decimal ("16.000000")/100 = Decimal ("0.160000")`).  A coefficient of more
than 28 significant digits makes the quotient inexact: it is rounded to 28
digits with `ROUND_HALF_EVEN`, with the exponent following the rounding
position. -/
def divDec100 (d : Dec) : Dec :=
  if d.c = 0 then ⟨0, d.e⟩
  else
    let n := d.c.natAbs
    let z := trailingZeros n n
    let cs := n / 10 ^ z
    let L := (natDigitList cs).length
    let high := d.e - 2 + z
    if L ≤ 28 then
      let low := high - ((28 : ℤ) - L)
      let ep := max (min d.e high) low
      let coeff : ℤ := (cs * 10 ^ (high - ep).toNat : ℕ)
      ⟨if d.c < 0 then -coeff else coeff, ep⟩
    else
      let k := L - 28
      let q := cs / 10 ^ k
      let r := cs % 10 ^ k
      let q2 := if 10 ^ k < 2 * r then q + 1
                else if 2 * r < 10 ^ k then q
                else if q % 2 = 0 then q else q + 1
      let c2 : ℤ := if q2 = 10 ^ 28 then ((10 ^ 27 : ℕ) : ℤ) else (q2 : ℕ)
      let e2 : ℤ := if q2 = 10 ^ 28 then high + k + 1 else high + k
      ⟨if d.c < 0 then -c2 else c2, e2⟩

/-- Maximal run of ASCII digits at the head of the list, with the rest. -/
def takeDigits : List Char → List Char × List Char
  | [] => ([], [])
  | c :: cs =>
    if c.isDigit then
      let p := takeDigits cs
      (c :: p.1, p.2)
    else ([], c :: cs)

/-- Unsigned part of the regex `\d+(?:\.\d+)?` at the head of the list; the
match is returned as a `Dec` (so that leading zeros vanish and the
fractional length is kept, exactly as in `Decimal (m.group (0))`). -/
def numCore (neg : Bool) (l : List Char) : Option Dec :=
  let p := takeDigits l
  if p.1.isEmpty then none
  else
    let fr : List Char :=
      match p.2 with
      | '.' :: r2 => (takeDigits r2).1
      | _ => []
    let coeff : ℤ := (digitsToNat p.1 * 10 ^ fr.length + digitsToNat fr : ℕ)
    some ⟨if neg then -coeff else coeff, -(fr.length : ℤ)⟩

/-- Attempt of the regex `-?\d+(?:\.\d+)?` at the head of the list, as tried
by `re.search` inside `parse_decimal` (a lone `-` with no digit after it
fails just as in the engine, since `numCore` then sees no digits). -/
def numDecAt : List Char → Option Dec
  | '-' :: rest => numCore true rest
  | l => numCore false l

/-- Leftmost match of `-?\d+(?:\.\d+)?` (`re.search` semantics). -/
def findNum : List Char → Option Dec
  | [] => none
  | c :: cs =>
    match numDecAt (c :: cs) with
    | some d => some d
    | none => findNum cs

/-- Preprocessing in `parse_decimal`: delete `$` and `,`, map NBSP to a
space, then `strip`. -/
def cleanMoney (l : List Char) : List Char :=
  stripL ((l.filter (fun c => !(c == '$' || c == ','))).map
    (fun c => if c = Char.ofNat 160 then ' ' else c))

/-- Python `parse_decimal` from the source: total, extracts the first
`-?\d+(?:\.\d+)?` match after the preprocessing, and yields `0` when there
is no match. -/
def parse_decimal (s : String) : Dec :=
  (findNum (cleanMoney s.data)).getD ⟨0, 0⟩

/-- Thousands-grouping helper (input least-significant first). -/
def commaAux : Nat → List Char → List Char
  | _, [] => []
  | 0, c :: cs => ',' :: c :: commaAux 2 cs
  | k + 1, c :: cs => c :: commaAux k cs

/-- Thousands grouping of an integer digit list (most-significant first), as
produced by the Python format spec `,`. -/
def commaGroup (ds : List Char) : List Char :=
  (commaAux 3 ds.reverse).reverse

/-- Two-digit rendering of a cent remainder (`0 ≤ n < 100`). -/
def twoDigits (n : Nat) : List Char :=
  [Char.ofNat (48 + n / 10 % 10), Char.ofNat (48 + n % 10)]

/-- Python `fmt_money` from the source:
`f"{d.quantize(TWOPLACES):,.2f}"` — exactly two decimal places under
`ROUND_HALF_EVEN`, with thousands separators. -/
def fmt_money (q : ℚ) : String :=
  let cents := (rndHalfEven (q * 100)).natAbs
  String.mk ((if q < 0 then ['-'] else []) ++ commaGroup (natDigitList (cents / 100))
    ++ '.' :: twoDigits (cents % 100))

/-- Attempt of the regex `(\d+(?:\.\d+)?)\s*%` at the head of the list; the
backtracking of the Python engine collapses to: a fractional part is taken
exactly when a digit follows the point, and the match succeeds exactly when
`%` follows after optional whitespace.  The matched group is returned as a
`Dec`, exactly as `Decimal (m.group (1))` would read it. -/
def pctAt (l : List Char) : Option Dec :=
  let p := takeDigits l
  if p.1.isEmpty then none
  else
    match p.2 with
    | '.' :: r2 =>
      let f := takeDigits r2
      if f.1.isEmpty then none
      else
        match f.2.dropWhile pySpace with
        | '%' :: _ =>
          some ⟨(digitsToNat p.1 * 10 ^ f.1.length + digitsToNat f.1 : ℕ), -(f.1.length : ℤ)⟩
        | _ => none
    | r1 =>
      match r1.dropWhile pySpace with
      | '%' :: _ => some ⟨(digitsToNat p.1 : ℕ), 0⟩
      | _ => none

/-- Leftmost match of `(\d+(?:\.\d+)?)\s*%` (`re.search` semantics). -/
def findPct : List Char → Option Dec
  | [] => none
  | c :: cs =>
    match pctAt (c :: cs) with
    | some v => some v
    | none => findPct cs

/-- Python `percent_from_text` from the source at the `Decimal` level: the
first matched `number %` group divided by `Decimal (100)`, `none` when there
is no match.  The source function takes only the text — no label
argument. -/
def percent_dec_from_text (s : String) : Option Dec :=
  (findPct s.data).map divDec100

/-- Value view of `percent_dec_from_text`, for the places where the source
only uses the returned `Decimal` arithmetically. -/
def percent_from_text (s : String) : Option ℚ :=
  (percent_dec_from_text s).map Dec.toQ

/-- Whitespace-run collapse (`re.sub (r"\s+", " ", s)`), with a flag telling
whether the previous character was whitespace. -/
def collapseAux : Bool → List Char → List Char
  | _, [] => []
  | prev, c :: cs =>
    if pySpace c then
      if prev then collapseAux true cs else ' ' :: collapseAux true cs
    else c :: collapseAux false cs

/-- Python `normalize_code` from the source: strip, uppercase, newline to
space, collapse whitespace; then prefer the alphanumeric-only form, else the
space-free form, else the collapsed form. -/
def normalize_code (code : String) : String :=
  let s := collapseAux false ((stripL code.data).map
    (fun c => if c = '\n' then ' ' else Char.toUpper c))
  let noSpaces := s.filter (fun c => !(pySpace c))
  let onlyAlnum := s.filter (fun c => (65 ≤ c.toNat && c.toNat ≤ 90) || c.isDigit)
  if onlyAlnum ≠ [] then String.mk onlyAlnum
  else if noSpaces ≠ [] then String.mk noSpaces
  else String.mk s

/-- Month-number table `SPANISH_MONTHS` from the source. -/
def spanishMonth (w : String) : Option Nat :=
  if w = "ENERO" then some 1 else if w = "FEBRERO" then some 2
  else if w = "MARZO" then some 3 else if w = "ABRIL" then some 4
  else if w = "MAYO" then some 5 else if w = "JUNIO" then some 6
  else if w = "JULIO" then some 7 else if w = "AGOSTO" then some 8
  else if w = "SEPTIEMBRE" then some 9 else if w = "SETIEMBRE" then some 9
  else if w = "OCTUBRE" then some 10 else if w = "NOVIEMBRE" then some 11
  else if w = "DICIEMBRE" then some 12 else none

/-- Gregorian leap-year rule (as used by `datetime`). -/
def isLeap (y : Nat) : Bool := (y % 4 == 0 && y % 100 != 0) || y % 400 == 0

/-- Days in a month (as validated by `datetime`). -/
def daysInMonth (y m : Nat) : Nat :=
  if m = 2 then (if isLeap y then 29 else 28)
  else if m = 4 ∨ m = 6 ∨ m = 9 ∨ m = 11 then 30 else 31

/-- Range validation performed by the `datetime` constructor. -/
def checkDate (y m d : Nat) : Option (Nat × Nat × Nat) :=
  if 1 ≤ y ∧ y ≤ 9999 ∧ 1 ≤ m ∧ m ≤ 12 ∧ 1 ≤ d ∧ d ≤ daysInMonth y m then some (y, m, d)
  else none

/-- Field of 1–2 digits (the `strptime` classes `%d` and `%m`). -/
def twoDigitField (l : List Char) : Option Nat :=
  match l with
  | [a] => if a.isDigit then some (digitsToNat [a]) else none
  | [a, b] => if a.isDigit && b.isDigit then some (digitsToNat [a, b]) else none
  | _ => none

/-- Field of exactly 4 digits (the `strptime` class `%Y`). -/
def fourDigitField (l : List Char) : Option Nat :=
  match l with
  | [a, b, c, d] =>
    if a.isDigit && b.isDigit && c.isDigit && d.isDigit then some (digitsToNat [a, b, c, d])
    else none
  | _ => none

/-- Split on a separator character. -/
def splitChar (sep : Char) : List Char → List (List Char)
  | [] => [[]]
  | c :: cs =>
    let r := splitChar sep cs
    if c = sep then [] :: r
    else
      match r with
      | [] => [[c]]
      | h :: t => (c :: h) :: t

/-- `strptime` with a day/month/year pattern separated by `sep`
(full-string match). -/
def dateDMY (sep : Char) (l : List Char) : Option (Nat × Nat × Nat) :=
  match splitChar sep l with
  | [a, b, c] =>
    match twoDigitField a, twoDigitField b, fourDigitField c with
    | some d, some m, some y => checkDate y m d
    | _, _, _ => none
  | _ => none

/-- `strptime` with a year/month/day pattern separated by `sep`. -/
def dateYMD (sep : Char) (l : List Char) : Option (Nat × Nat × Nat) :=
  match splitChar sep l with
  | [a, b, c] =>
    match fourDigitField a, twoDigitField b, twoDigitField c with
    | some y, some m, some d => checkDate y m d
    | _, _, _ => none
  | _ => none

/-- `strptime` with a month/day/year pattern separated by `sep`. -/
def dateMDY (sep : Char) (l : List Char) : Option (Nat × Nat × Nat) :=
  match splitChar sep l with
  | [a, b, c] =>
    match twoDigitField a, twoDigitField b, fourDigitField c with
    | some m, some d, some y => checkDate y m d
    | _, _, _ => none
  | _ => none

/-- Zero-padded four-digit year (`strftime` `%Y`). -/
def pad4 (n : Nat) : List Char :=
  [Char.ofNat (48 + n / 1000 % 10), Char.ofNat (48 + n / 100 % 10),
   Char.ofNat (48 + n / 10 % 10), Char.ofNat (48 + n % 10)]

/-- `strftime ("%d/%m/%Y")`. -/
def renderDMY (y m d : Nat) : String :=
  String.mk (twoDigits d ++ '/' :: twoDigits m ++ '/' :: pad4 y)

/-- Character class `[A-Za-zÁÉÍÓÚáéíóú]` of the Spanish long-date regex. -/
def spanishLetter (c : Char) : Bool :=
  (65 ≤ c.toNat && c.toNat ≤ 90) || (97 ≤ c.toNat && c.toNat ≤ 122) ||
  c == 'Á' || c == 'É' || c == 'Í' || c == 'Ó' || c == 'Ú' ||
  c == 'á' || c == 'é' || c == 'í' || c == 'ó' || c == 'ú'

/-- Consume `\s+` (at least one whitespace character). -/
def dropSpaces1 (l : List Char) : Option (List Char) :=
  match l with
  | c :: cs => if pySpace c then some (cs.dropWhile pySpace) else none
  | [] => none

/-- Exactly four digits at the head (the group `(\d{4})`, not anchored at
the end). -/
def fourDigitsAt (l : List Char) : Option Nat :=
  match l with
  | a :: b :: c :: d :: _ =>
    if a.isDigit && b.isDigit && c.isDigit && d.isDigit then some (digitsToNat [a, b, c, d])
    else none
  | _ => none

/-- Attempt, at the head of the list, of the Spanish long-date regex
`(\d{1,2})\s+de\s+([A-Za-zÁÉÍÓÚáéíóú]+)\s+(?:de|del)\s+(\d{4})` with
`re.IGNORECASE`; the bordering character classes are disjoint, so the
engine's backtracking collapses to this direct scan. -/
def spanishAt (l : List Char) : Option (Nat × String × Nat) :=
  let p := takeDigits l
  if p.1.length = 0 ∨ 2 < p.1.length then none
  else
    match dropSpaces1 p.2 with
    | none => none
    | some r1 =>
      match r1 with
      | d1 :: e1 :: r2 =>
        if (d1 = 'd' ∨ d1 = 'D') ∧ (e1 = 'e' ∨ e1 = 'E') then
          match dropSpaces1 r2 with
          | none => none
          | some r3 =>
            let mw := r3.takeWhile spanishLetter
            let r4 := r3.dropWhile spanishLetter
            if mw.isEmpty then none
            else
              match dropSpaces1 r4 with
              | none => none
              | some r5 =>
                match r5 with
                | d2 :: e2 :: r6 =>
                  if (d2 = 'd' ∨ d2 = 'D') ∧ (e2 = 'e' ∨ e2 = 'E') then
                    let r8 :=
                      match r6 with
                      | l1 :: r7a => if l1 = 'l' ∨ l1 = 'L' then r7a else r6
                      | [] => r6
                    match dropSpaces1 r8 with
                    | none => none
                    | some r9 =>
                      match fourDigitsAt r9 with
                      | some y => some (digitsToNat p.1, String.mk mw, y)
                      | none => none
                  else none
                | _ => none
        else none
      | _ => none

/-- Leftmost match of the Spanish long-date regex (`re.search`). -/
def spanishSearch : List Char → Option (Nat × String × Nat)
  | [] => none
  | c :: cs =>
    match spanishAt (c :: cs) with
    | some v => some v
    | none => spanishSearch cs

/-- Python `fmt_date_ddmmyyyy` from the source: strip; the five `strptime`
formats `%d/%m/%Y`, `%Y-%m-%d`, `%d-%m-%Y`, `%d.%m.%Y`, `%m/%d/%Y` in
order; then the Spanish long form via `SPANISH_MONTHS`; else the (stripped)
input unchanged. -/
def fmt_date_ddmmyyyy (raw : String) : String :=
  let l := stripL raw.data
  if l.isEmpty then ""
  else
    match dateDMY '/' l with
    | some v => renderDMY v.1 v.2.1 v.2.2
    | none =>
    match dateYMD '-' l with
    | some v => renderDMY v.1 v.2.1 v.2.2
    | none =>
    match dateDMY '-' l with
    | some v => renderDMY v.1 v.2.1 v.2.2
    | none =>
    match dateDMY '.' l with
    | some v => renderDMY v.1 v.2.1 v.2.2
    | none =>
    match dateMDY '/' l with
    | some v => renderDMY v.1 v.2.1 v.2.2
    | none =>
    match spanishSearch l with
    | some (d, mw, y) =>
      match spanishMonth (strUpper mw) with
      | some mon =>
        if 1 ≤ y ∧ y ≤ 9999 ∧ 1 ≤ d ∧ d ≤ daysInMonth y mon then renderDMY y mon d
        else String.mk l
      | none => String.mk l
    | none => String.mk l

/-- Python `dict` as an insertion-ordered association list: assignment
replaces the value in place when the key exists, else appends. -/
def setKey : List (String × String) → String → String → List (String × String)
  | [], k, v => [(k, v)]
  | (k0, v0) :: rest, k, v =>
    if k0 = k then (k, v) :: rest else (k0, v0) :: setKey rest k v

/-- Python `dict.get` (returning `none` for a missing key). -/
def getKey : List (String × String) → String → Option String
  | [], _ => none
  | (k0, v0) :: rest, k => if k0 = k then some v0 else getKey rest k

/-- Python `it.get (k)` with the `or ""` guard applied downstream: a missing
key behaves as the empty string in every use in the source. -/
def getS (it : List (String × String)) (k : String) : String := (getKey it k).getD ""

/-- One extracted entity: type, mention text, nested properties. -/
structure Entity where
  type_ : String
  mention_text : String
  properties : List (String × String)
deriving DecidableEq, Repr

/-- Python `_props_to_dict`: property types case-folded, mention texts
stripped, later duplicate property types overwriting. -/
def propsToDict (props : List (String × String)) (upper : Bool) : List (String × String) :=
  props.foldl (fun out p => setKey out (if upper then strUpper p.1 else strLower p.1) (strip p.2)) []

/-- Python `extract_sams`: header dict (assignment per matching entity) and
the PRODUCTO property dicts in encounter order. -/
def extract_sams (ents : List Entity) :
    List (String × String) × List (List (String × String)) :=
  ents.foldl (fun st e =>
    let t := strUpper e.type_
    if t = "FECHA_FACTURA" ∨ t = "NUMERO_FACTURA" then
      (setKey st.1 t (strip e.mention_text), st.2)
    else if t = "PRODUCTO" then (st.1, st.2 ++ [propsToDict e.properties true])
    else st) ([], [])

/-- Python `extract_city`. -/
def extract_city (ents : List Entity) :
    List (String × String) × List (List (String × String)) :=
  ents.foldl (fun st e =>
    let t := strLower e.type_
    if t = "invoice_date" ∨ t = "invoice_id" then
      (setKey st.1 t (strip e.mention_text), st.2)
    else if t = "line_item" then (st.1, st.2 ++ [propsToDict e.properties false])
    else st) ([], [])

/-- Python `str` of an `int`. -/
def intStr (n : ℤ) : String :=
  String.mk ((if n < 0 then ['-'] else []) ++ natDigitList n.natAbs)

/-- Rendering of the IEPS percentage in `compute_unit_and_labels`: quantize
to one decimal, `normalize`, then an `endswith (".0")` removal (dead code,
since `normalize` already stripped the trailing zero). -/
def pctTenthsStr (v : ℚ) : String :=
  let s := decStr (normalizeDec (quantizeTenths v))
  match s.data.reverse with
  | '0' :: '.' :: r => String.mk r.reverse
  | _ => s

/-- Python `compute_unit_and_labels` from the source (SAMS formula):
zero quantity short-circuits to zero costs and `"No Aplicable"` labels;
otherwise `(amount − discount)/qty · (1+IVA) · (1+IEPS)` per unit, the line
total computed from `(amount − discount)` directly, and the two labels
(IVA collapses an absent rate with an explicit zero; IEPS keeps `none`
distinct). -/
def compute_unit_and_labels (amount discount qty : ℚ) (iva_pct ieps_pct : Option ℚ) :
    ℚ × ℚ × String × String :=
  if qty ≤ 0 then (0, 0, "No Aplicable", "No Aplicable")
  else
    let iva_value := iva_pct.getD 0
    let ieps_value := ieps_pct.getD 0
    let unit_net := (amount - discount) / qty * (1 + iva_value) * (1 + ieps_value)
    let line_net := (amount - discount) * (1 + iva_value) * (1 + ieps_value)
    let iva_label :=
      if iva_value = 0 then "No Aplicable"
      else "Aplicable " ++ intStr (rndHalfEven (iva_value * 100)) ++ "%"
    let ieps_label :=
      match ieps_pct with
      | none => "No Aplicable"
      | some v => "Aplicable " ++ pctTenthsStr (v * 100) ++ "%"
    (unit_net, line_net, iva_label, ieps_label)

/-- Raw line item: the property dict produced by the schema adapters. -/
abbrev Item := List (String × String)

/-- Key type of the SAMS deduplicator: six strings, as in the Python
tuple. -/
abbrev SamsKey := String × String × String × String × String × String

/-- Python `dedupe_key_sams` from the source (the percentage arguments of
the Python function are the `percent_from_text` results the loop computes
from the same item).  The last two components are
`str (iva_pct or Decimal ("0"))` and
`str (ieps_pct) if ieps_pct is not None else "None"`: a zero `Decimal` is
falsy in Python whatever its exponent, so both an absent IVA and any
zero-valued IVA collapse to `"0"`, while an absent IEPS stays the distinct
string `"None"`; non-zero percentages keep the full printed form of the
division result (so `"16%"` gives `"0.16"` but `"16.000000%"` gives
`"0.160000"` — distinct keys). -/
def dedupe_key_sams (it : Item) : SamsKey :=
  let amt := parse_decimal (getS it "COSTO_TOTAL_POR_PRODUCTO")
  let qty := parse_decimal (getS it "CANTIDAD_PRODUCTO")
  let code := strUpper (strip (getS it "CODIGO_DE_PRODUCTO"))
  let desc := strUpper (strip (getS it "DESCRIPCION_PRODUCTO"))
  let iva_pct := percent_dec_from_text (getS it "IVA")
  let ieps_pct := percent_dec_from_text (getS it "IEPS")
  let ivaStr :=
    match iva_pct with
    | none => "0"
    | some dv => if dv.c = 0 then "0" else decStr dv
  let iepsStr :=
    match ieps_pct with
    | none => "None"
    | some dv => decStr dv
  (normalize_code code, desc, decStr qty, decStr (quantize2 amt), ivaStr, iepsStr)

/-- Key type of the CITY deduplicator. -/
abbrev CityKey := String × String × String × String

/-- Python `dedupe_key_city` from the source. -/
def dedupe_key_city (it : Item) : CityKey :=
  let amt := parse_decimal (getS it "amount")
  let qty := parse_decimal (getS it "quantity")
  let code := strUpper (strip (getS it "product_code"))
  let desc := strUpper (strip (getS it "description"))
  (normalize_code code, desc, decStr qty, decStr (quantize2 amt))

/-- Python `sku_and_desc_from_mapping`: lookup of the normalized supplier
code, defaulting to the raw (stripped) code with an empty internal
description. -/
def sku_and_desc_from_mapping (mapping : String → Option (String × String))
    (supplier_code : String) : String × String :=
  (mapping (normalize_code supplier_code)).getD (supplier_code, "")

/-- One SAMS output row, as assembled in `procesar_facturas` (fields, in
order: SKU, description, quantity, unit net cost, line net cost, IVA label,
IEPS label, invoice date, invoice number, provider label). -/
def samsRow (mapping : String → Option (String × String))
    (invoice_date invoice_num : String) (it : Item) : List String :=
  let qty := (parse_decimal (getS it "CANTIDAD_PRODUCTO")).toQ
  let gross := (parse_decimal (getS it "COSTO_TOTAL_POR_PRODUCTO")).toQ
  let discount := (parse_decimal (getS it "DESCUENTO")).toQ
  let code := strip (getS it "CODIGO_DE_PRODUCTO")
  let desc_doc := strip (getS it "DESCRIPCION_PRODUCTO")
  let iva_pct := percent_from_text (getS it "IVA")
  let ieps_pct := percent_from_text (getS it "IEPS")
  let r := compute_unit_and_labels gross discount qty iva_pct ieps_pct
  let sd := sku_and_desc_from_mapping mapping code
  let final_desc := if sd.2 = "" then desc_doc else sd.2
  [sd.1, final_desc, decStr (quantize0 qty), fmt_money r.1, fmt_money r.2.1,
   r.2.2.1, r.2.2.2, invoice_date, invoice_num, "Sam´s Club"]

/-- Inline CITY IVA-label computation of `procesar_facturas`: when the
extracted VAT amount is positive the percentage is back-computed as the
ratio `vat / (amount + ieps)` (zero when the gross amount is not positive),
quantized to one decimal and normalized; the two `"No Aplicable"` branches
of the source collapse to one. -/
def cityIvaLabel (it : Item) : String :=
  let amount_gross := (parse_decimal (getS it "amount")).toQ
  let vat_amount := (parse_decimal (getS it "vat")).toQ
  let ieps_amount := (parse_decimal (getS it "ieps")).toQ
  if 0 < vat_amount then
    let base_for_vat := if 0 < amount_gross then amount_gross + ieps_amount else 0
    let vat_pct := if 0 < base_for_vat then vat_amount / base_for_vat else 0
    "Aplicable " ++ decStr (normalizeDec (quantizeTenths (vat_pct * 100))) ++ "%"
  else "No Aplicable"

/-- Inline CITY IEPS-label computation of `procesar_facturas`: the ratio
`ieps / amount` when both are positive. -/
def cityIepsLabel (it : Item) : String :=
  let amount_gross := (parse_decimal (getS it "amount")).toQ
  let ieps_amount := (parse_decimal (getS it "ieps")).toQ
  if 0 < ieps_amount ∧ 0 < amount_gross then
    "Aplicable " ++ decStr (normalizeDec (quantizeTenths (ieps_amount / amount_gross * 100))) ++ "%"
  else "No Aplicable"

/-- One CITY output row, as assembled in `procesar_facturas`, with the
inline label computation: the VAT percentage is back-computed as
`vat / (amount + ieps)` and the IEPS percentage as `ieps / amount`. -/
def cityRow (mapping : String → Option (String × String))
    (invoice_date invoice_num : String) (it : Item) : List String :=
  let qty := (parse_decimal (getS it "quantity")).toQ
  let code := strip (getS it "product_code")
  let desc := strip (getS it "description")
  let total_amount := (parse_decimal (getS it "total_amount")).toQ
  let unit_net := if 0 < qty then total_amount / qty else 0
  let sd := sku_and_desc_from_mapping mapping code
  let final_desc := if sd.2 = "" then desc else sd.2
  [sd.1, final_desc, decStr (quantize0 qty), fmt_money unit_net, fmt_money total_amount,
   cityIvaLabel it, cityIepsLabel it, invoice_date, invoice_num, "City Club"]

/-- First-occurrence filter: keeps an element exactly when its key is not in
the `seen` accumulator, in encounter order. -/
def dedupFirst {α κ : Type} [DecidableEq κ] (key : α → κ) : List α → List κ → List α
  | [], _ => []
  | x :: xs, seen =>
    if key x ∈ seen then dedupFirst key xs seen
    else x :: dedupFirst key xs (key x :: seen)

/-- SAMS processing loop of `procesar_facturas`: compute the dedupe key,
skip seen keys, else emit the row, in encounter order. -/
def procesar_sams (mapping : String → Option (String × String))
    (invoice_date invoice_num : String) : List Item → List SamsKey → List (List String)
  | [], _ => []
  | it :: rest, seen =>
    let k := dedupe_key_sams it
    if k ∈ seen then procesar_sams mapping invoice_date invoice_num rest seen
    else samsRow mapping invoice_date invoice_num it ::
      procesar_sams mapping invoice_date invoice_num rest (k :: seen)

/-- CITY processing loop of `procesar_facturas`. -/
def procesar_city (mapping : String → Option (String × String))
    (invoice_date invoice_num : String) : List Item → List CityKey → List (List String)
  | [], _ => []
  | it :: rest, seen =>
    let k := dedupe_key_city it
    if k ∈ seen then procesar_city mapping invoice_date invoice_num rest seen
    else cityRow mapping invoice_date invoice_num it ::
      procesar_city mapping invoice_date invoice_num rest (k :: seen)

/-! Helper lemmas. -/

/-- Membership survives `dropWhile`. -/
lemma mem_dropWhile {p : Char → Bool} :
    ∀ {l : List Char} {c : Char}, c ∈ l.dropWhile p → c ∈ l := by
  intro l
  induction l with
  | nil => intro c hc; rw [List.dropWhile_nil] at hc; exact hc
  | cons a as ih =>
    intro c hc
    rw [List.dropWhile_cons] at hc
    by_cases hp : p a = true
    · rw [if_pos hp] at hc
      exact List.mem_cons_of_mem _ (ih hc)
    · rw [if_neg hp] at hc
      exact hc

/-- Membership survives `stripL`. -/
lemma mem_stripL {c : Char} {l : List Char} (hc : c ∈ stripL l) : c ∈ l := by
  unfold stripL at hc
  rw [List.mem_reverse] at hc
  have h1 := mem_dropWhile hc
  rw [List.mem_reverse] at h1
  exact mem_dropWhile h1

/-- On a digit-free list, `takeDigits` consumes nothing. -/
lemma takeDigits_eq_nil : ∀ {l : List Char}, (∀ c ∈ l, c.isDigit = false) →
    takeDigits l = ([], l)
  | [], _ => rfl
  | c :: cs, h => by
    have hc := h c (List.mem_cons_self c cs)
    simp [takeDigits, hc]

/-- On a digit-free list, `numCore` fails. -/
lemma numCore_none {l : List Char} (b : Bool) (h : ∀ c ∈ l, c.isDigit = false) :
    numCore b l = none := by
  unfold numCore
  rw [takeDigits_eq_nil h]
  rfl

/-- On a digit-free list, `numDecAt` fails. -/
lemma numDecAt_none {l : List Char} (h : ∀ c ∈ l, c.isDigit = false) :
    numDecAt l = none := by
  unfold numDecAt
  split
  · next rest => exact numCore_none true (fun c hc => h c (List.mem_cons_of_mem _ hc))
  · exact numCore_none false h

/-- On a digit-free list, `findNum` fails. -/
lemma findNum_none : ∀ (l : List Char), (∀ c ∈ l, c.isDigit = false) → findNum l = none
  | [], _ => rfl
  | c :: cs, h => by
    rw [findNum, numDecAt_none h]
    exact findNum_none cs (fun x hx => h x (List.mem_cons_of_mem _ hx))

/-- The `parse_decimal` preprocessing cannot create digits. -/
lemma cleanMoney_no_digit {l : List Char} (h : ∀ c ∈ l, c.isDigit = false) :
    ∀ c ∈ cleanMoney l, c.isDigit = false := by
  intro c hc
  unfold cleanMoney at hc
  have hc1 := mem_stripL hc
  rw [List.mem_map] at hc1
  obtain ⟨a, ha, rfl⟩ := hc1
  have ha1 := List.mem_of_mem_filter ha
  by_cases hn : a = Char.ofNat 160
  · simp [hn]
  · simp only [if_neg hn]
    exact h a ha1

/-- On a digit-free list, `pctAt` fails. -/
lemma pctAt_none {l : List Char} (h : ∀ c ∈ l, c.isDigit = false) : pctAt l = none := by
  unfold pctAt
  rw [takeDigits_eq_nil h]
  rfl

/-- On a digit-free list, `findPct` fails. -/
lemma findPct_none : ∀ (l : List Char), (∀ c ∈ l, c.isDigit = false) → findPct l = none
  | [], _ => rfl
  | c :: cs, h => by
    rw [findPct, pctAt_none h]
    exact findPct_none cs (fun x hx => h x (List.mem_cons_of_mem _ hx))

/-! Claim theorems. -/

/-- C9: date normalization maps each of `"27/05/2025"`, `"2025-05-27"` and
`"27 de Mayo del 2025"` to the canonical `"27/05/2025"`. -/
theorem C9_date_normalization :
    fmt_date_ddmmyyyy "27/05/2025" = "27/05/2025" ∧
    fmt_date_ddmmyyyy "2025-05-27" = "27/05/2025" ∧
    fmt_date_ddmmyyyy "27 de Mayo del 2025" = "27/05/2025" := by
  refine ⟨by decide, by decide, by decide⟩

/-- C10: `parse_decimal` is total (it is a Lean function, hence never
raises); after deleting `$` and `,` it returns the first substring matching
an optionally signed decimal number and returns `0` when the cleaned string
holds no digit at all; consequently the decimal-comma amount `"12,5"`
parses as `125`, not `12.5`. -/
theorem C10_parse_decimal (s : String) (h : ∀ c ∈ s.data, c.isDigit = false) :
    parse_decimal s = ⟨0, 0⟩ ∧
    parse_decimal "12,5" = ⟨125, 0⟩ ∧ (parse_decimal "12,5").toQ = 125 := by
  refine ⟨?_, by decide, by with_unfolding_all decide⟩
  unfold parse_decimal
  rw [findNum_none _ (cleanMoney_no_digit h)]
  rfl

/-- Witness for C10 at the digit-free input `"$ ,"`. -/
theorem C10_parse_decimal_witness :
    parse_decimal "$ ," = ⟨0, 0⟩ ∧
    parse_decimal "12,5" = ⟨125, 0⟩ ∧ (parse_decimal "12,5").toQ = 125 :=
  C10_parse_decimal "$ ," (by decide)

/-- C6: counterexample — `percent_from_text` takes no label argument at all
and returns a value on `"16%"`, a text in which no letter of the label token
`"IVA"` occurs, where the claim demands "absent". -/
theorem C6_counterexample :
    percent_from_text "16%" = some (4/25) ∧
    (∀ c ∈ ("16%" : String).data, c ≠ 'I' ∧ c ≠ 'V' ∧ c ≠ 'A') ∧
    some ((4 : ℚ)/25) ≠ none := by
  refine ⟨by with_unfolding_all decide, by decide, by decide⟩

/-- C6 amended: `percent_from_text` ignores any label — it takes only the
text; it returns `none` whenever the text holds no digit at all (hence no
`number %` pattern), returns `n/100` for the first number followed
(up to whitespace) by `%`, and `none` stays distinguishable from an
explicit zero rate such as `"0%"`. -/
theorem C6_amended (s : String) (h : ∀ c ∈ s.data, c.isDigit = false) :
    percent_from_text s = none ∧
    percent_from_text "Tasa o Cuota: 16.000000%" = some (16/100) ∧
    percent_from_text "0%" = some 0 ∧
    some (0 : ℚ) ≠ (none : Option ℚ) := by
  refine ⟨?_, by with_unfolding_all decide, by with_unfolding_all decide, by decide⟩
  unfold percent_from_text percent_dec_from_text
  rw [findPct_none _ h]
  rfl

/-- Witness for C6 at the digit-free input `"IVA"` (the label alone, no
percentage figure). -/
theorem C6_amended_witness :
    percent_from_text "IVA" = none ∧
    percent_from_text "Tasa o Cuota: 16.000000%" = some (16/100) ∧
    percent_from_text "0%" = some 0 ∧
    some (0 : ℚ) ≠ (none : Option ℚ) :=
  C6_amended "IVA" (by decide)

/-- Modelled from the spec's words, for comparison with `rndHalfEven`:
rounding to the nearest integer with ties away from zero ("half-up"). -/
def rndHalfUp (x : ℚ) : ℤ :=
  let m : ℚ := |x| + 1/2
  let f : ℤ := m.num.fdiv m.den
  if x < 0 then -f else f

/-- Modelled from the spec's words, for comparison with `fmt_money`: the
same two-decimal rendering but with half-up rounding of the cents. -/
def fmt_money_half_up (q : ℚ) : String :=
  let cents := (rndHalfUp (q * 100)).natAbs
  String.mk ((if q < 0 then ['-'] else []) ++ commaGroup (natDigitList (cents / 100))
    ++ '.' :: twoDigits (cents % 100))

/-- C7: counterexample — at the exact half-cent value `1/8` the source
renders `"0.12"` (`ROUND_HALF_EVEN`, the `decimal` context default), while
the claimed half-up rounding would render `"0.13"`. -/
theorem C7_counterexample :
    fmt_money (1/8) = "0.12" ∧ fmt_money_half_up (1/8) = "0.13" ∧
    fmt_money (1/8) ≠ fmt_money_half_up (1/8) := by
  refine ⟨by with_unfolding_all decide, by with_unfolding_all decide, by with_unfolding_all decide⟩

/-- Digit characters built from `48 + k` for `k < 10` satisfy `isDigit`. -/
lemma isDigit_ofNat (k : Nat) (hk : k < 10) : (Char.ofNat (48 + k)).isDigit = true := by
  interval_cases k <;> decide

/-- Code-point value of a digit character built from `48 + k` for `k < 10`. -/
lemma toNat_ofNat_digit (k : Nat) (hk : k < 10) : (Char.ofNat (48 + k)).toNat = 48 + k := by
  interval_cases k <;> decide

/-- C7 amended: every `fmt_money` rendering ends in a decimal point followed
by exactly two digit characters, and those two digits are the cent remainder
of rounding the value to cents with `ROUND_HALF_EVEN` (banker's rounding,
the `decimal` context default) — not half-up. -/
theorem C7_amended (q : ℚ) :
    ∃ p : String, ∃ d1 d2 : Char,
      fmt_money q = p ++ String.mk ['.', d1, d2] ∧
      d1.isDigit = true ∧ d2.isDigit = true ∧
      (d1.toNat - 48) * 10 + (d2.toNat - 48) = (rndHalfEven (q * 100)).natAbs % 100 := by
  refine ⟨String.mk ((if q < 0 then ['-'] else []) ++
      commaGroup (natDigitList ((rndHalfEven (q * 100)).natAbs / 100))),
    Char.ofNat (48 + (rndHalfEven (q * 100)).natAbs % 100 / 10 % 10),
    Char.ofNat (48 + (rndHalfEven (q * 100)).natAbs % 100 % 10), rfl, ?_, ?_, ?_⟩
  · exact isDigit_ofNat _ (Nat.mod_lt _ (by norm_num))
  · exact isDigit_ofNat _ (Nat.mod_lt _ (by norm_num))
  · rw [toNat_ofNat_digit _ (Nat.mod_lt _ (by norm_num)),
      toNat_ofNat_digit _ (Nat.mod_lt _ (by norm_num))]
    omega

/-- With exponent zero, the `Decimal` string layout is the bare digit
list. -/
lemma decBody_zero (ds : List Char) : decBody ds 0 = ds := by
  have h : (0 : ℤ) ≤ 0 ∧ (-6 : ℤ) ≤ 0 + (ds.length : ℤ) - 1 := by
    refine ⟨le_refl 0, ?_⟩
    have : (0 : ℤ) ≤ ds.length := Int.ofNat_nonneg _
    omega
  unfold decBody
  rw [if_pos h, if_pos rfl]

/-- `str` of an integral `Decimal` with exponent zero coincides with `str`
of the `int`. -/
lemma decStr_int (c : ℤ) : decStr ⟨c, 0⟩ = intStr c := by
  unfold decStr intStr
  rw [decBody_zero]

/-- C8: counterexample — a SAMS line item with source quantity `"2.5"` has
its Quantity field rendered as `"2"` (quantized to the integer with
`ROUND_HALF_EVEN`), not as the source text `"2.5"`. -/
theorem C8_counterexample :
    (samsRow (fun _ => none) "d" "n" [("CANTIDAD_PRODUCTO", "2.5")]).getD 2 "" = "2" ∧
    ("2" : String) ≠ "2.5" := by
  refine ⟨by with_unfolding_all decide, by decide⟩

/-- C8 amended: for both schemas the rendered Quantity field is always the
integer string obtained by quantizing the parsed quantity to an integer
with `ROUND_HALF_EVEN`; fractional quantities are rounded away, never
rendered as given. -/
theorem C8_amended (m : String → Option (String × String)) (dt nm : String) (it : Item) :
    (samsRow m dt nm it).getD 2 "" =
      intStr (rndHalfEven (parse_decimal (getS it "CANTIDAD_PRODUCTO")).toQ) ∧
    (cityRow m dt nm it).getD 2 "" =
      intStr (rndHalfEven (parse_decimal (getS it "quantity")).toQ) := by
  constructor
  · show decStr (quantize0 ((parse_decimal (getS it "CANTIDAD_PRODUCTO")).toQ)) = _
    exact decStr_int _
  · show decStr (quantize0 ((parse_decimal (getS it "quantity")).toQ)) = _
    exact decStr_int _

/-- Assignment then lookup on a Python-style dict returns the assigned
value. -/
lemma getKey_setKey (l : List (String × String)) (k v : String) :
    getKey (setKey l k v) k = some v := by
  induction l with
  | nil => simp [setKey, getKey]
  | cons p rest ih =>
    obtain ⟨k0, v0⟩ := p
    by_cases h0 : k0 = k
    · simp [setKey, getKey, h0]
    · simp [setKey, getKey, h0, ih]

/-- C5: counterexample — two `NUMERO_FACTURA` entities, the first with
mention `"A"` and the second empty: the header field ends up `""`.  The
later, empty duplicate overwrote the first non-empty occurrence, where the
claim demands that the first non-empty occurrence win. -/
theorem C5_counterexample :
    getKey (extract_sams [⟨"NUMERO_FACTURA", "A", []⟩, ⟨"NUMERO_FACTURA", "", []⟩]).1
      "NUMERO_FACTURA" = some "" ∧
    some ("" : String) ≠ some "A" := by
  refine ⟨by decide, by decide⟩

/-- C5 amended: for both adapters, the Header field holds the (stripped)
mention text of the LAST occurrence of its entity type — every later
duplicate, including an empty one, overwrites the earlier value. -/
theorem C5_amended (ents : List Entity) (e : Entity) :
    ((strUpper e.type_ = "FECHA_FACTURA" ∨ strUpper e.type_ = "NUMERO_FACTURA") →
      getKey (extract_sams (ents ++ [e])).1 (strUpper e.type_) = some (strip e.mention_text)) ∧
    ((strLower e.type_ = "invoice_date" ∨ strLower e.type_ = "invoice_id") →
      getKey (extract_city (ents ++ [e])).1 (strLower e.type_) = some (strip e.mention_text)) := by
  constructor
  · intro h
    unfold extract_sams
    rw [List.foldl_append]
    simp only [List.foldl_cons, List.foldl_nil]
    rw [if_pos h]
    exact getKey_setKey _ _ _
  · intro h
    unfold extract_city
    rw [List.foldl_append]
    simp only [List.foldl_cons, List.foldl_nil]
    rw [if_pos h]
    exact getKey_setKey _ _ _

/-- Witness for C5: a `NUMERO_FACTURA` entity appended after another one of
the same type wins. -/
theorem C5_amended_witness :
    getKey (extract_sams ([⟨"NUMERO_FACTURA", "A", []⟩] ++ [⟨"NUMERO_FACTURA", "B", []⟩])).1
      (strUpper "NUMERO_FACTURA") = some (strip "B") :=
  (C5_amended [⟨"NUMERO_FACTURA", "A", []⟩] ⟨"NUMERO_FACTURA", "B", []⟩).1 (Or.inr (by decide))

/-- Assignment then lookup under a different key is unchanged. -/
lemma getKey_setKey_ne (l : List (String × String)) (k k' v : String) (h : k ≠ k') :
    getKey (setKey l k v) k' = getKey l k' := by
  induction l with
  | nil => simp [setKey, getKey, h]
  | cons p rest ih =>
    obtain ⟨k0, v0⟩ := p
    by_cases h0 : k0 = k
    · subst h0
      simp [setKey, getKey, h]
    · simp [setKey, getKey, h0, ih]

/-- `getS` version of `getKey_setKey_ne`. -/
lemma getS_setKey_ne (it : Item) (k k' v : String) (h : k ≠ k') :
    getS (setKey it k v) k' = getS it k' := by
  unfold getS
  rw [getKey_setKey_ne _ _ _ _ h]

/-- The SAMS loop is the first-occurrence filter followed by row
assembly. -/
lemma procesar_sams_eq (m : String → Option (String × String)) (dt nm : String)
    (items : List Item) : ∀ seen : List SamsKey,
    procesar_sams m dt nm items seen =
      (dedupFirst dedupe_key_sams items seen).map (samsRow m dt nm) := by
  induction items with
  | nil => intro seen; rfl
  | cons it rest ih =>
    intro seen
    simp only [procesar_sams, dedupFirst]
    by_cases hc : dedupe_key_sams it ∈ seen
    · rw [if_pos hc, if_pos hc, ih]
    · rw [if_neg hc, if_neg hc, List.map_cons, ih]

/-- C4: counterexample — two SAMS items identical except in `DESCUENTO`
(`"10"` vs `"0"`) have EQUAL fingerprints (the key has no discount
component; instead it carries the parsed IVA/IEPS percentages), so only the
first produces an output row: the loop yields 1 row where the claim demands
2 surviving rows. -/
theorem C4_counterexample :
    dedupe_key_sams
        [("CODIGO_DE_PRODUCTO", "A1"), ("DESCRIPCION_PRODUCTO", "Soda"),
         ("CANTIDAD_PRODUCTO", "2"), ("COSTO_TOTAL_POR_PRODUCTO", "100"),
         ("DESCUENTO", "10"), ("IVA", "IVA 16%")] =
      dedupe_key_sams
        [("CODIGO_DE_PRODUCTO", "A1"), ("DESCRIPCION_PRODUCTO", "Soda"),
         ("CANTIDAD_PRODUCTO", "2"), ("COSTO_TOTAL_POR_PRODUCTO", "100"),
         ("DESCUENTO", "0"), ("IVA", "IVA 16%")] ∧
    (procesar_sams (fun _ => none) "27/05/2025" "F1"
        [[("CODIGO_DE_PRODUCTO", "A1"), ("DESCRIPCION_PRODUCTO", "Soda"),
          ("CANTIDAD_PRODUCTO", "2"), ("COSTO_TOTAL_POR_PRODUCTO", "100"),
          ("DESCUENTO", "10"), ("IVA", "IVA 16%")],
         [("CODIGO_DE_PRODUCTO", "A1"), ("DESCRIPCION_PRODUCTO", "Soda"),
          ("CANTIDAD_PRODUCTO", "2"), ("COSTO_TOTAL_POR_PRODUCTO", "100"),
          ("DESCUENTO", "0"), ("IVA", "IVA 16%")]] []).length = 1 ∧
    (1 : Nat) ≠ 2 := by
  refine ⟨by with_unfolding_all decide, by with_unfolding_all decide, by decide⟩

/-- C4 amended: the SAMS fingerprint is the tuple (normalized supplier
code, stripped-uppercased description, stringified parsed quantity,
stringified two-place-quantized gross amount, stringified IVA percentage
`Decimal` with `None` or zero collapsed to `"0"`, stringified IEPS
percentage `Decimal` with `None` kept distinct as `"None"`) — the discount
is NOT part of it, so items differing only in discount are deduplicated;
among items sharing a fingerprint only the first in encounter order
produces an output row.  The percentage components are the printed
`Decimal` forms, so value-equal but differently printed rates such as
`"16%"` and `"16.000000%"` give distinct fingerprints. -/
theorem C4_amended :
    (∀ (m : String → Option (String × String)) (dt nm : String) (items : List Item),
      procesar_sams m dt nm items [] =
        (dedupFirst dedupe_key_sams items []).map (samsRow m dt nm)) ∧
    (∀ (it : Item) (s : String),
      dedupe_key_sams (setKey it "DESCUENTO" s) = dedupe_key_sams it) ∧
    dedupe_key_sams [("IVA", "IVA 16%")] ≠ dedupe_key_sams [("IVA", "IVA 16.000000%")] := by
  refine ⟨?_, ?_, by with_unfolding_all decide⟩
  · intro m dt nm items
    exact procesar_sams_eq m dt nm items []
  · intro it s
    unfold dedupe_key_sams
    rw [getS_setKey_ne it "DESCUENTO" "COSTO_TOTAL_POR_PRODUCTO" s (by decide),
        getS_setKey_ne it "DESCUENTO" "CANTIDAD_PRODUCTO" s (by decide),
        getS_setKey_ne it "DESCUENTO" "CODIGO_DE_PRODUCTO" s (by decide),
        getS_setKey_ne it "DESCUENTO" "DESCRIPCION_PRODUCTO" s (by decide),
        getS_setKey_ne it "DESCUENTO" "IVA" s (by decide),
        getS_setKey_ne it "DESCUENTO" "IEPS" s (by decide)]

/-- C3: counterexample — a CITY line item with quantity `"0"` but VAT
amount `"32"` on gross `"200"`: the unit cost is zero, yet the IVA label is
`"Aplicable 16%"`, not the claimed `"No Aplicable"` (the CITY labels ignore
the quantity). -/
theorem C3_counterexample :
    ((parse_decimal "0").toQ ≤ 0) ∧
    (cityRow (fun _ => none) "d" "n"
        [("quantity", "0"), ("amount", "200"), ("total_amount", "0"),
         ("vat", "32"), ("ieps", "0")]).getD 5 "" = "Aplicable 16%" ∧
    ("Aplicable 16%" : String) ≠ "No Aplicable" := by
  refine ⟨by with_unfolding_all decide, by with_unfolding_all decide, by decide⟩

/-- C3 amended: with non-positive quantity the computed unit cost is `0`
under both schemas, and under SAMS both labels are `"No Aplicable"`; under
CITY, however, the two labels are computed from the VAT/IEPS amounts alone,
independently of the quantity. -/
theorem C3_amended (a d q : ℚ) (iva ieps : Option ℚ)
    (m : String → Option (String × String)) (dt nm : String) (it : Item) (s : String)
    (hq : q ≤ 0) (hq2 : (parse_decimal (getS it "quantity")).toQ ≤ 0) :
    compute_unit_and_labels a d q iva ieps = (0, 0, "No Aplicable", "No Aplicable") ∧
    (cityRow m dt nm it).getD 3 "" = fmt_money 0 ∧
    (cityRow m dt nm (setKey it "quantity" s)).getD 5 "" = (cityRow m dt nm it).getD 5 "" ∧
    (cityRow m dt nm (setKey it "quantity" s)).getD 6 "" = (cityRow m dt nm it).getD 6 "" := by
  refine ⟨?_, ?_, ?_, ?_⟩
  · unfold compute_unit_and_labels
    rw [if_pos hq]
  · show fmt_money (if 0 < (parse_decimal (getS it "quantity")).toQ then _ else 0) = fmt_money 0
    rw [if_neg (not_lt.mpr hq2)]
  · show cityIvaLabel (setKey it "quantity" s) = cityIvaLabel it
    unfold cityIvaLabel
    rw [getS_setKey_ne it "quantity" "amount" s (by decide),
        getS_setKey_ne it "quantity" "vat" s (by decide),
        getS_setKey_ne it "quantity" "ieps" s (by decide)]
  · show cityIepsLabel (setKey it "quantity" s) = cityIepsLabel it
    unfold cityIepsLabel
    rw [getS_setKey_ne it "quantity" "amount" s (by decide),
        getS_setKey_ne it "quantity" "ieps" s (by decide)]

/-- Witness for C3 at a concrete zero-quantity CITY item. -/
theorem C3_amended_witness :
    compute_unit_and_labels 5 1 0 none none = (0, 0, "No Aplicable", "No Aplicable") ∧
    (cityRow (fun _ => none) "d" "n" [("quantity", "0"), ("vat", "32")]).getD 3 "" = fmt_money 0 ∧
    (cityRow (fun _ => none) "d" "n" (setKey [("quantity", "0"), ("vat", "32")] "quantity" "7")).getD 5 ""
      = (cityRow (fun _ => none) "d" "n" [("quantity", "0"), ("vat", "32")]).getD 5 "" ∧
    (cityRow (fun _ => none) "d" "n" (setKey [("quantity", "0"), ("vat", "32")] "quantity" "7")).getD 6 ""
      = (cityRow (fun _ => none) "d" "n" [("quantity", "0"), ("vat", "32")]).getD 6 "" :=
  C3_amended 5 1 0 none none (fun _ => none) "d" "n" [("quantity", "0"), ("vat", "32")] "7"
    (by norm_num) (by with_unfolding_all decide)

/-- C2: counterexample — a CITY item with VAT amount `10` on gross `200`
gets the label `"Aplicable 5%"`: the percentage is back-computed as a ratio
of extracted amounts, not the claimed fixed statutory `"Aplicable 16%"`. -/
theorem C2_counterexample :
    0 < (parse_decimal "10").toQ ∧
    (cityRow (fun _ => none) "d" "n"
        [("product_code", "B2"), ("quantity", "1"), ("amount", "200"),
         ("total_amount", "210"), ("vat", "10"), ("ieps", "0")]).getD 5 "" = "Aplicable 5%" ∧
    ("Aplicable 5%" : String) ≠ "Aplicable 16%" := by
  refine ⟨by with_unfolding_all decide, by with_unfolding_all decide, by decide⟩

/-- C2 amended: the CITY IVA label is `"No Aplicable"` exactly when the
extracted VAT amount is not positive; when it is positive (and the gross
amount and VAT base are positive) the label is `"Aplicable p%"` with `p`
back-computed as the ratio `vat/(amount + ieps) · 100`, quantized to one
decimal and normalized — it is `16` only when the extracted amounts happen
to stand in that ratio, never a fixed statutory constant. -/
theorem C2_amended (m : String → Option (String × String)) (dt nm : String) (it it2 : Item)
    (hv : 0 < (parse_decimal (getS it "vat")).toQ)
    (ha : 0 < (parse_decimal (getS it "amount")).toQ)
    (hb : 0 < (parse_decimal (getS it "amount")).toQ + (parse_decimal (getS it "ieps")).toQ)
    (hv2 : (parse_decimal (getS it2 "vat")).toQ ≤ 0) :
    (cityRow m dt nm it).getD 5 "" =
      "Aplicable " ++ decStr (normalizeDec (quantizeTenths
        ((parse_decimal (getS it "vat")).toQ /
          ((parse_decimal (getS it "amount")).toQ + (parse_decimal (getS it "ieps")).toQ)
          * 100))) ++ "%" ∧
    (cityRow m dt nm it2).getD 5 "" = "No Aplicable" := by
  constructor
  · show cityIvaLabel it = _
    simp only [cityIvaLabel]
    rw [if_pos hv, if_pos ha, if_pos hb]
  · show cityIvaLabel it2 = _
    simp only [cityIvaLabel]
    rw [if_neg (not_lt.mpr hv2)]

/-- Witness for C2: VAT `32` on gross `200` (the back-computed ratio is
then 16%), and a zero-VAT item. -/
theorem C2_amended_witness :
    (cityRow (fun _ => none) "d" "n" [("vat", "32"), ("amount", "200")]).getD 5 "" =
      "Aplicable " ++ decStr (normalizeDec (quantizeTenths
        ((parse_decimal (getS [("vat", "32"), ("amount", "200")] "vat")).toQ /
          ((parse_decimal (getS [("vat", "32"), ("amount", "200")] "amount")).toQ +
            (parse_decimal (getS [("vat", "32"), ("amount", "200")] "ieps")).toQ)
          * 100))) ++ "%" ∧
    (cityRow (fun _ => none) "d" "n" [("vat", "0")]).getD 5 "" = "No Aplicable" :=
  C2_amended (fun _ => none) "d" "n" [("vat", "32"), ("amount", "200")] [("vat", "0")]
    (by with_unfolding_all decide) (by with_unfolding_all decide)
    (by with_unfolding_all decide) (by with_unfolding_all decide)

/-- With positive quantity, the SAMS line total equals the unit cost times
the quantity, exactly (both are `(amount − discount)` times the tax
factors, the unit cost divided by the quantity). -/
lemma line_eq_unit_mul (a d q : ℚ) (i1 i2 : Option ℚ) (hq : 0 < q) :
    (compute_unit_and_labels a d q i1 i2).2.1 =
      (compute_unit_and_labels a d q i1 i2).1 * q := by
  simp only [compute_unit_and_labels]
  rw [if_neg (not_le.mpr hq)]
  show (a - d) * (1 + i1.getD 0) * (1 + i2.getD 0) =
    (a - d) / q * (1 + i1.getD 0) * (1 + i2.getD 0) * q
  field_simp

/-- C1: with positive quantity, the SAMS rendered line net cost is the
two-place rendering of `unitNetCost * quantity` (the line total is computed
as `(amount − discount)` times the tax factors, which agrees exactly with
unit times quantity); the CITY rendered line net cost is the two-place
rendering of the extracted `totalAmount` taken verbatim.  `Decimal`
arithmetic is modelled exactly (the 28-digit context of the source makes
every step here exact except non-terminating division, far below output
granularity). -/
theorem C1_line_net (m : String → Option (String × String)) (dt nm : String)
    (it cit : Item)
    (hq : 0 < (parse_decimal (getS it "CANTIDAD_PRODUCTO")).toQ) :
    (samsRow m dt nm it).getD 4 "" =
      fmt_money ((compute_unit_and_labels
          (parse_decimal (getS it "COSTO_TOTAL_POR_PRODUCTO")).toQ
          (parse_decimal (getS it "DESCUENTO")).toQ
          (parse_decimal (getS it "CANTIDAD_PRODUCTO")).toQ
          (percent_from_text (getS it "IVA"))
          (percent_from_text (getS it "IEPS"))).1 *
        (parse_decimal (getS it "CANTIDAD_PRODUCTO")).toQ) ∧
    (cityRow m dt nm cit).getD 4 "" = fmt_money (parse_decimal (getS cit "total_amount")).toQ := by
  constructor
  · show fmt_money ((compute_unit_and_labels _ _ _ _ _).2.1) = _
    rw [line_eq_unit_mul _ _ _ _ _ hq]
  · rfl

/-- Witness for C1 at the spec's Scenario A (gross 100, discount 10,
quantity 2, IVA 16%) and Scenario B (total 232). -/
theorem C1_line_net_witness :
    (samsRow (fun _ => none) "d" "n"
        [("CANTIDAD_PRODUCTO", "2"), ("COSTO_TOTAL_POR_PRODUCTO", "100"),
         ("DESCUENTO", "10"), ("IVA", "IVA 16%")]).getD 4 "" =
      fmt_money ((compute_unit_and_labels
          (parse_decimal (getS [("CANTIDAD_PRODUCTO", "2"), ("COSTO_TOTAL_POR_PRODUCTO", "100"),
            ("DESCUENTO", "10"), ("IVA", "IVA 16%")] "COSTO_TOTAL_POR_PRODUCTO")).toQ
          (parse_decimal (getS [("CANTIDAD_PRODUCTO", "2"), ("COSTO_TOTAL_POR_PRODUCTO", "100"),
            ("DESCUENTO", "10"), ("IVA", "IVA 16%")] "DESCUENTO")).toQ
          (parse_decimal (getS [("CANTIDAD_PRODUCTO", "2"), ("COSTO_TOTAL_POR_PRODUCTO", "100"),
            ("DESCUENTO", "10"), ("IVA", "IVA 16%")] "CANTIDAD_PRODUCTO")).toQ
          (percent_from_text (getS [("CANTIDAD_PRODUCTO", "2"), ("COSTO_TOTAL_POR_PRODUCTO", "100"),
            ("DESCUENTO", "10"), ("IVA", "IVA 16%")] "IVA"))
          (percent_from_text (getS [("CANTIDAD_PRODUCTO", "2"), ("COSTO_TOTAL_POR_PRODUCTO", "100"),
            ("DESCUENTO", "10"), ("IVA", "IVA 16%")] "IEPS"))).1 *
        (parse_decimal (getS [("CANTIDAD_PRODUCTO", "2"), ("COSTO_TOTAL_POR_PRODUCTO", "100"),
          ("DESCUENTO", "10"), ("IVA", "IVA 16%")] "CANTIDAD_PRODUCTO")).toQ) ∧
    (cityRow (fun _ => none) "d" "n" [("total_amount", "232")]).getD 4 "" =
      fmt_money (parse_decimal (getS [("total_amount", "232")] "total_amount")).toQ :=
  C1_line_net (fun _ => none) "d" "n"
    [("CANTIDAD_PRODUCTO", "2"), ("COSTO_TOTAL_POR_PRODUCTO", "100"),
     ("DESCUENTO", "10"), ("IVA", "IVA 16%")]
    [("total_amount", "232")] (by with_unfolding_all decide)

end Facturas
